import Mathlib

/-!
# Phantasm — verification of the polling client

A shallow embedding of `src/phantasm.py`: the JSON value model, Python
truthiness, the status-polling primitive `_wait`, the URL builder `_url`,
and the request builders the claims exercise (`create_container`,
`get_playbook_results`, `get_playbook_action_results`, `get_action_results`),
together with theorems settling the specification claims.

Conventions of the embedding:
* JSON payloads are modelled by the inductive `Json`; Python `dict.get(k)`
  returns `None` when the key is absent, modelled by `Json.get` returning
  `Json.null` (Python `None` and JSON `null` coincide for parsed payloads).
* The HTTP session is modelled by an oracle `get : String → Nat → Json`
  giving the payload of the n-th GET of a url, and `post : String → Json → Json`
  giving the response to a POST of a body to a url.
* Raised exceptions are modelled by an explicit result constructor;
  falling off the end of a Python function (implicit `return None`) is the
  `timeout` constructor.
* The source file spells the membership tests `status is in [...]` and has
  a stray quote in `['pending', 'running'']`; these are syntax slips whose
  only possible reading is list membership by value equality, and they are
  embedded as such (the repository spec likewise directs that status
  comparisons be value equality).
-/

namespace Phantasm

/-- JSON values, as returned by `response.json()` in the source.
`null` also stands for Python `None`. -/
inductive Json where
  | null : Json
  | bool : Bool → Json
  | num : Int → Json
  | str : String → Json
  | arr : List Json → Json
  | obj : List (String × Json) → Json

/-- Association-list lookup used by `Json.get`; first binding wins,
as in a Python dict built from distinct keys. -/
def assocGet (k : String) : List (String × Json) → Option Json
  | [] => none
  | (k2, v) :: rest => if k2 = k then some v else assocGet k rest

/-- Python `payload.get(key)`: the value under `key`, or `None`
(here `Json.null`) when the key is absent or the payload is not an object. -/
def Json.get (j : Json) (key : String) : Json :=
  match j with
  | .obj fields =>
    match assocGet key fields with
    | some v => v
    | none => .null
  | _ => .null

/-- Python truthiness of a parsed-JSON value (`if success:` etc.):
`None`, `False`, `0`, `""`, `[]` and `{}` are falsy, everything else truthy. -/
def truthy : Json → Bool
  | .null => false
  | .bool b => b
  | .num n => n != 0
  | .str s => s != ""
  | .arr xs => !xs.isEmpty
  | .obj fields => !fields.isEmpty

/-- `status in ['failed', 'success', 'new', 'closed', 'open']`
(phantasm.py line 236): membership of the status value in the terminal set;
a non-string value is a member of neither set. -/
def statusTerminal : Json → Bool
  | .str s => s = "failed" || s = "success" || s = "new" || s = "closed" || s = "open"
  | _ => false

/-- `status in ['pending', 'running']` (phantasm.py line 238):
membership of the status value in the in-progress set. -/
def statusInProgress : Json → Bool
  | .str s => s = "pending" || s = "running"
  | _ => false

/-- Python `repr` of a parsed-JSON value, used inside containers by `str`. -/
def pyRepr : Json → String
  | .null => "None"
  | .bool true => "True"
  | .bool false => "False"
  | .num n => toString n
  | .str s => String.singleton (Char.ofNat 39) ++ s ++ String.singleton (Char.ofNat 39)
  | .arr xs => "[" ++ String.intercalate ", " (xs.attach.map (fun x => pyRepr x.1)) ++ "]"
  | .obj fields => "\x7b" ++
      String.intercalate ", " (fields.attach.map (fun p =>
        String.singleton (Char.ofNat 39) ++ p.1.1 ++ String.singleton (Char.ofNat 39) ++ ": " ++ pyRepr p.1.2)) ++ "\x7d"
termination_by j => sizeOf j
decreasing_by
  · have := List.sizeOf_lt_of_mem x.2
    simp only [Json.arr.sizeOf_spec]
    omega
  · have h1 := List.sizeOf_lt_of_mem p.2
    have h2 : sizeOf p.1.2 < sizeOf p.1 := by
      obtain ⟨⟨k, v⟩, hp⟩ := p
      simp
      try omega
    simp only [Json.obj.sizeOf_spec]
    omega

/-- Python `str` / `'{0}'.format` of a parsed-JSON value: a bare string for
strings, `repr` rendering otherwise (`None`, `True`, ints, lists, dicts).
The scalar cases are spelled out so that they reduce definitionally. -/
def pyStr : Json → String
  | .null => "None"
  | .bool true => "True"
  | .bool false => "False"
  | .num n => toString n
  | .str s => s
  | .arr xs => pyRepr (.arr xs)
  | .obj fields => pyRepr (.obj fields)

/-- The mutable fields of a `phantasm` client object, as initialised by
`__init__` (phantasm.py lines 121-159) and mutated by the private setters.
`container_id` is not assigned in `__init__` (only `_set_container_id`
assigns it), so it is an `Option`, `none` before the first assignment;
the id histories store whatever `.get(...)` returned, possibly `null`. -/
structure PhantasmState where
  phantom_server_address : String
  phantom_auth_token : String
  container_id : Option Json
  container_name : String
  container_label : String
  source_identifier : String
  artifact_id : List Json
  artifact_label : List String
  artifact_name : List String
  file_id : List Json
  file_name : List String
  playbook_run_id : List Json
  playbook_name : List String
  last_run_product_name : String
  last_run_application_id : Option Json
  last_run_action_id : Option Json
  last_run_action_name : String
  user_id : String
  password : String

/-- The client state produced by `__init__` for a configuration giving
server address `addr` and auth token `token`: every history empty, every
string field the empty string, `container_id` not yet assigned. -/
def initialState (addr token : String) : PhantasmState where
  phantom_server_address := addr
  phantom_auth_token := token
  container_id := none
  container_name := ""
  container_label := ""
  source_identifier := ""
  artifact_id := []
  artifact_label := []
  artifact_name := []
  file_id := []
  file_name := []
  playbook_run_id := []
  playbook_name := []
  last_run_product_name := ""
  last_run_application_id := none
  last_run_action_id := none
  last_run_action_name := ""
  user_id := ""
  password := ""

/-- Outcome of a `_wait` call: a returned payload, the implicit `return None`
when the `for` loop exhausts `max_attempts` (the timeout outcome — a distinct
constructor, so distinguishable from any returned payload), or the raised
`ValueError('Wrong return status: {0}'.format(status))` carrying its
message (the `logger.debug` and `return None` after the `raise` on
lines 247-248 are unreachable and add nothing to the semantics). -/
inductive WaitResult where
  | payload : Json → WaitResult
  | timeout : WaitResult
  | error : String → WaitResult

/-- Observable behaviour of one `_wait` call: its outcome, the number of
HTTP fetches (`self._sess.get(url)`) it performed, and the number of
`time.sleep(interval)` calls it performed. -/
structure WaitTrace where
  result : WaitResult
  fetches : Nat
  sleeps : Nat

/-- The body of `_wait` (phantasm.py lines 231-248): the
`for count in range(max_attempts)` loop, unrolled as structural recursion
on the number of loop iterations that remain, with `idx` the index of the
next GET of `url` in the session's response stream `get`.  Each iteration
fetches the payload, reads its `status`, `success` and `count` fields
(the last assignment rebinds the Python loop variable `count`, a local —
it cannot change how many iterations `range(max_attempts)` yields), and
then runs the `if`/`elif` ladder of the source.  The client state `s` is
threaded through untouched: the loop body assigns no attribute of `self`. -/
def waitLoop (s : PhantasmState) (get : String → Nat → Json) (url : String)
    (interval : Nat) (idx fuel : Nat) : PhantasmState × WaitTrace :=
  match fuel with
  | 0 => (s, ⟨.timeout, 0, 0⟩)
  | Nat.succ fuel =>
    let j := get url idx
    let status := j.get "status"
    let success := j.get "success"
    let count := j.get "count"
    if statusTerminal status then
      (s, ⟨.payload j, 1, 0⟩)
    else if statusInProgress status then
      let rest := waitLoop s get url interval (idx + 1) fuel
      (rest.1, ⟨rest.2.result, rest.2.fetches + 1, rest.2.sleeps + 1⟩)
    else if truthy success then
      (s, ⟨.payload j, 1, 0⟩)
    else if truthy count then
      (s, ⟨.payload j, 1, 0⟩)
    else
      (s, ⟨.error ("Wrong return status: " ++ pyStr status), 1, 0⟩)

/-- `_wait(url, interval, max_attempts)` (phantasm.py lines 216-248),
started on a session whose next GET of `url` is response number 0. -/
def phantasmWait (s : PhantasmState) (get : String → Nat → Json) (url : String)
    (interval maxAttempts : Nat) : PhantasmState × WaitTrace :=
  waitLoop s get url interval 0 maxAttempts

/-- `_url(url_path, filter, page_number, page_size)` (phantasm.py
lines 188-214), transcribed statement by statement: append the pagination
query to the path; if the filter list is non-empty (Python truthiness of a
list), build `filter_query_string` starting from `"?"` and extend it with
`'&_filter_' + action` for each entry, else the empty string; append
`'&include_expensive'` to the path; return address ++ path ++ filter query. -/
def phantasmUrl (s : PhantasmState) (url_path : String) (filter : List String)
    (page_number page_size : Nat) : String :=
  let url_path := url_path ++ "?page=" ++ toString page_number ++ "&page_size=" ++ toString page_size
  let filter_query_string :=
    if !filter.isEmpty then
      filter.foldl (fun q action => q ++ "&_filter_" ++ action) "?"
    else
      ""
  let url_path := url_path ++ "&include_expensive"
  s.phantom_server_address ++ url_path ++ filter_query_string

/-- `create_container(...)` (phantasm.py lines 253-296): build the
`post_data` dictionary from the twelve arguments, POST it to
`self._url('container')`, record `response.get('id')` through
`_set_container_id` (line 473: `self._container_id = phantom_container_id`,
a plain assignment), and return the raw JSON response.  `post url body`
models the response the session returns for that POST. -/
def create_container (s : PhantasmState) (post : String → Json → Json)
    (name : String) (artifacts : List Json) (custom_fields data : Json)
    (description label : String) (run_automation : Bool)
    (sensitivity severity source_data_identifier status : String)
    (tags : List Json) : PhantasmState × Json :=
  let post_data : Json := .obj
    [("artifacts", .arr artifacts),
     ("custom_fields", custom_fields),
     ("data", data),
     ("description", .str description),
     ("label", .str label),
     ("name", .str name),
     ("run_automation", .bool run_automation),
     ("sensitivity", .str sensitivity),
     ("severity", .str severity),
     ("source_data_identifier", .str source_data_identifier),
     ("status", .str status),
     ("tags", .arr tags)]
  let post_response := post (phantasmUrl s "container" [] 0 0) post_data
  ({ s with container_id := some (post_response.get "id") }, post_response)

/-- `get_playbook_results(playbook_id, wait, interval, max_attempts)`
(phantasm.py lines 730-752): if `playbook_id` is falsy (absent, `None`, or
falsy value), fall back to `self._playbook_run_id[-1]` (`none` models the
`IndexError` this raises on an empty history); build the
`playbook_run/<id>` URL; perform one GET and return its JSON.  The
`wait`, `interval` and `max_attempts` parameters are accepted and
documented by the source but never used: the body never calls `_wait`. -/
def get_playbook_results (s : PhantasmState) (get : String → Nat → Json)
    (playbook_id : Option Json) (wait : Bool) (interval maxAttempts : Nat) :
    Option (PhantasmState × WaitTrace) :=
  let pid : Option Json :=
    match playbook_id with
    | some p => if truthy p then some p else s.playbook_run_id.getLast?
    | none => s.playbook_run_id.getLast?
  match pid with
  | none => none
  | some p =>
    let url := phantasmUrl s ("playbook_run/" ++ pyStr p) [] 0 0
    let get_response := get url 0
    some (s, ⟨.payload get_response, 1, 0⟩)

/-- Outcome of a `get_playbook_action_results` call: a normal return
carrying the resulting client state and the observable trace, the
`IndexError` raised by `self._playbook_run_id[-1]` on an empty history, or
the `TypeError` raised by a call that passes a keyword argument the callee
does not accept.  A raised exception ends the call, so an exception
constructor records no trace: no fetch has been performed when it is
raised on the paths below. -/
inductive ActionResultsOutcome where
  | ret : PhantasmState → WaitTrace → ActionResultsOutcome
  | indexError : ActionResultsOutcome
  | typeError : String → ActionResultsOutcome

/-- `get_playbook_action_results(action, playbook_id, wait, interval,
max_attempts)` (phantasm.py lines 754-783): if `playbook_id is None`,
fall back to `self._playbook_run_id[-1]` (`indexError` models the
`IndexError` this raises on an empty history); build the two filter
expressions (lines 774-776); then line 777 calls
`self._url("app_run", filters=filters)` — but `_url`'s parameter is named
`filter` and `_url` takes no `**kwargs`, so this call raises `TypeError`
before any fetch of the resource is performed.  The GET on line 779 and
the `_wait` hand-off on line 781 are unreachable, so the `ret`
constructor is never produced and `get`, `wait`, `interval` and
`max_attempts` go unused. -/
def get_playbook_action_results (s : PhantasmState) (get : String → Nat → Json)
    (action : String) (playbook_id : Option Json) (wait : Bool)
    (interval maxAttempts : Nat) : ActionResultsOutcome :=
  let pid : Option Json :=
    match playbook_id with
    | some p => some p
    | none => s.playbook_run_id.getLast?
  match pid with
  | none => .indexError
  | some p =>
    let filtersArg := ["playbook_run_id=" ++ pyStr p, "action=\x22" ++ action ++ "\x22"]
    .typeError "_url() got an unexpected keyword argument \x27filters\x27"

/-- `get_action_results(action_id, wait, interval, max_attempts)`
(phantasm.py lines 1020-1044): if `action_id is None`, fall back to
`self._last_run_action_id` (`none` when that was never set); build the
`action_run/<id>` URL; perform one GET; when `wait` is set, hand the same
URL to `_wait`, continuing the response stream at index 1. -/
def get_action_results (s : PhantasmState) (get : String → Nat → Json)
    (action_id : Option Json) (wait : Bool) (interval maxAttempts : Nat) :
    Option (PhantasmState × WaitTrace) :=
  let aid : Option Json :=
    match action_id with
    | some a => some a
    | none => s.last_run_action_id
  match aid with
  | none => none
  | some a =>
    let url := phantasmUrl s ("action_run/" ++ pyStr a) [] 0 0
    let post_response := get url 0
    if wait then
      let r := waitLoop s get url interval 1 maxAttempts
      some (r.1, ⟨r.2.result, r.2.fetches + 1, r.2.sleeps⟩)
    else
      some (s, ⟨.payload post_response, 1, 0⟩)

/-! ## Concrete payloads and client states used by the claim theorems -/

/-- A client freshly constructed against the demo configuration. -/
def sampleState : PhantasmState := initialState "https://phantom.local/rest/" "token"

/-- An in-progress payload: `{"status": "running"}`. -/
def runningPayload : Json := .obj [("status", .str "running")]

/-- A terminal payload with data: `{"status": "success", "data": [...]}`. -/
def successDataPayload : Json :=
  .obj [("status", .str "success"), ("data", .arr [.obj [("ticket", .num 1)]])]

/-- A payload whose status is outside both status sets: `{"status": "bogus"}`. -/
def bogusPayload : Json := .obj [("status", .str "bogus")]

/-- A payload with an unrecognized status but a truthy `success` field:
`{"status": "bogus", "success": true}`. -/
def bogusSuccessPayload : Json := .obj [("status", .str "bogus"), ("success", .bool true)]

/-- A payload with no `status` field and a truthy `success` field. -/
def successOnlyPayload : Json := .obj [("success", .bool true)]

/-- A payload with neither `status` nor `success`, and a non-zero `count`. -/
def countOnlyPayload : Json := .obj [("count", .num 3)]

/-- A server that reports `{"status": "running"}` on every fetch of every url. -/
def alwaysRunningServer : String → Nat → Json := fun _ _ => runningPayload

/-- A server that reports `{"status": "running"}` on the first fetch of any
url and `{"status": "success", "data": [...]}` from the second fetch on. -/
def twoStepServer : String → Nat → Json :=
  fun _ n => if n = 0 then runningPayload else successDataPayload

/-! ## Helper lemmas about the polling loop -/

/-- The terminal and in-progress status sets are disjoint: a status that
satisfies the in-progress membership test fails the terminal one. -/
theorem inProgress_not_terminal (j : Json) (h : statusInProgress j = true) :
    statusTerminal j = false := by
  cases j with
  | str s =>
    simp only [statusInProgress, Bool.or_eq_true, decide_eq_true_eq] at h
    simp only [statusTerminal, Bool.or_eq_true, decide_eq_true_eq]
    rcases h with h | h <;> subst h <;> simp
  | _ => rfl

/-- The loop body of `_wait` assigns no attribute of `self`: the state
component it returns is the state it was given, for any number of
remaining iterations and any position in the response stream. -/
theorem waitLoop_fst (s : PhantasmState) (get : String → Nat → Json)
    (url : String) (interval : Nat) (fuel : Nat) :
    ∀ idx, (waitLoop s get url interval idx fuel).1 = s := by
  induction fuel with
  | zero => intro idx; rfl
  | succ n ih =>
    intro idx
    simp only [waitLoop]
    split
    · rfl
    · split
      · simpa using ih (idx + 1)
      · split
        · rfl
        · split <;> rfl

/-- On a stream whose every payload carries an in-progress status, the
loop of `_wait` runs through all its remaining iterations, fetching and
sleeping once per iteration, and ends in the timeout outcome. -/
theorem waitLoop_all_inprogress (s : PhantasmState) (get : String → Nat → Json)
    (url : String) (interval : Nat)
    (hprog : ∀ k, statusInProgress ((get url k).get "status") = true) :
    ∀ fuel idx, waitLoop s get url interval idx fuel = (s, ⟨.timeout, fuel, fuel⟩) := by
  intro fuel
  induction fuel with
  | zero => intro idx; rfl
  | succ n ih =>
    intro idx
    have hp := hprog idx
    have ht := inProgress_not_terminal _ hp
    simp only [waitLoop, ht, hp]
    simp [ih (idx + 1)]

/-- The loop of `_wait` never fetches more often than it has iterations
left, whatever the payloads contain. -/
theorem waitLoop_fetches_le (s : PhantasmState) (get : String → Nat → Json)
    (url : String) (interval : Nat) (fuel : Nat) :
    ∀ idx, (waitLoop s get url interval idx fuel).2.fetches ≤ fuel := by
  induction fuel with
  | zero => intro idx; exact Nat.le_refl 0
  | succ n ih =>
    intro idx
    simp only [waitLoop]
    split
    · simp
    · split
      · have := ih (idx + 1)
        simp only []
        omega
      · split
        · simp
        · split <;> simp

/-! ## Claim theorems -/

/-- C1: for every `max_attempts = N ≥ 1`, if the polled resource reports an
in-progress status (`pending` or `running`) on every fetch, `_wait` performs
exactly `N` fetches — never an `(N+1)`-th — and then returns the timeout
outcome: the implicit `return None`, a `WaitResult` constructor distinct
from any `payload` result, reached without raising. -/
theorem wait_attempt_bound (s : PhantasmState) (get : String → Nat → Json)
    (url : String) (interval N : Nat) (hN : 1 ≤ N)
    (hprog : ∀ k, statusInProgress ((get url k).get "status") = true) :
    (phantasmWait s get url interval N).2.result = WaitResult.timeout ∧
    (phantasmWait s get url interval N).2.fetches = N := by
  have h := waitLoop_all_inprogress s get url interval hprog N 0
  rw [phantasmWait, h]
  exact ⟨rfl, rfl⟩

/-- Witness for C1 at `N = 3` against a server that always reports
`{"status": "running"}`. -/
theorem wait_attempt_bound_witness :
    (phantasmWait sampleState alwaysRunningServer "u" 1 3).2.result = WaitResult.timeout ∧
    (phantasmWait sampleState alwaysRunningServer "u" 1 3).2.fetches = 3 :=
  wait_attempt_bound sampleState alwaysRunningServer "u" 1 3 (by decide) (fun _ => rfl)

/-- C2: if the first fetch returns a payload whose `status` is in the
terminal set (`failed`, `success`, `new`, `closed`, `open`), `_wait`
returns that payload after exactly one fetch and zero sleeps. -/
theorem wait_immediate_terminal (s : PhantasmState) (get : String → Nat → Json)
    (url : String) (interval maxAttempts : Nat) (h1 : 1 ≤ maxAttempts)
    (hterm : statusTerminal ((get url 0).get "status") = true) :
    phantasmWait s get url interval maxAttempts = (s, ⟨.payload (get url 0), 1, 0⟩) := by
  cases maxAttempts with
  | zero => omega
  | succ m => simp [phantasmWait, waitLoop, hterm]

/-- Witness for C2 against a server whose first response is
`{"status": "success", "data": [...]}`. -/
theorem wait_immediate_terminal_witness :
    phantasmWait sampleState (fun _ _ => successDataPayload) "u" 1 10 =
      (sampleState, ⟨.payload successDataPayload, 1, 0⟩) :=
  wait_immediate_terminal sampleState (fun _ _ => successDataPayload) "u" 1 10
    (by decide) rfl

/-- C3, counterexample: the payload
`{"status": "bogus", "success": true}` has a `status` outside both status
sets, yet `_wait` does not raise on it — the `elif success:` fallback fires
first and the payload is returned as a terminal result after one fetch. -/
theorem wait_unrecognized_counterexample :
    phantasmWait sampleState (fun _ _ => bogusSuccessPayload) "u" 1 5 =
      (sampleState, ⟨.payload bogusSuccessPayload, 1, 0⟩) := rfl

/-- C3, amended: for every payload whose `status` lies outside both the
terminal and the in-progress set and whose `success` and `count` fields are
not truthy, `_wait` raises the unrecognized-status `ValueError` on the
first such fetch, after exactly one fetch and zero sleeps — unrecognized
status is never a retry condition. -/
theorem wait_unrecognized_error (s : PhantasmState) (get : String → Nat → Json)
    (url : String) (interval maxAttempts : Nat) (h1 : 1 ≤ maxAttempts)
    (hterm : statusTerminal ((get url 0).get "status") = false)
    (hprog : statusInProgress ((get url 0).get "status") = false)
    (hsucc : truthy ((get url 0).get "success") = false)
    (hcnt : truthy ((get url 0).get "count") = false) :
    phantasmWait s get url interval maxAttempts =
      (s, ⟨.error ("Wrong return status: " ++ pyStr ((get url 0).get "status")), 1, 0⟩) := by
  cases maxAttempts with
  | zero => omega
  | succ m => simp [phantasmWait, waitLoop, hterm, hprog, hsucc, hcnt]

/-- Witness for the amended C3 at the payload `{"status": "bogus"}`. -/
theorem wait_unrecognized_error_witness :
    phantasmWait sampleState (fun _ _ => bogusPayload) "u" 1 5 =
      (sampleState, ⟨.error "Wrong return status: bogus", 1, 0⟩) :=
  wait_unrecognized_error sampleState (fun _ _ => bogusPayload) "u" 1 5
    (by decide) rfl rfl rfl rfl

/-- C4: a payload lacking a `status` field whose `success` field is truthy
is returned as terminal on that fetch; a payload lacking both `status` and
`success` whose `count` field is a non-zero number is likewise returned as
terminal on that fetch. -/
theorem wait_fallback_signals :
    (∀ (s : PhantasmState) (get : String → Nat → Json) (url : String) (interval m : Nat),
      (get url 0).get "status" = Json.null →
      truthy ((get url 0).get "success") = true →
      phantasmWait s get url interval (m + 1) = (s, ⟨.payload (get url 0), 1, 0⟩)) ∧
    (∀ (s : PhantasmState) (get : String → Nat → Json) (url : String) (interval m : Nat)
      (c : Int),
      (get url 0).get "status" = Json.null →
      (get url 0).get "success" = Json.null →
      (get url 0).get "count" = Json.num c → c ≠ 0 →
      phantasmWait s get url interval (m + 1) = (s, ⟨.payload (get url 0), 1, 0⟩)) := by
  constructor
  · intro s get url interval m hstatus hsucc
    simp [phantasmWait, waitLoop, hstatus, hsucc, statusTerminal, statusInProgress]
  · intro s get url interval m c hstatus hsucc hcnt hc
    simp [phantasmWait, waitLoop, hstatus, hsucc, hcnt, hc,
      statusTerminal, statusInProgress, truthy]

/-- Witness for C4: the `success` fallback at `{"success": true}` and the
`count` fallback at `{"count": 3}`, both with `max_attempts = 5`. -/
theorem wait_fallback_signals_witness :
    phantasmWait sampleState (fun _ _ => successOnlyPayload) "u" 1 5 =
      (sampleState, ⟨.payload successOnlyPayload, 1, 0⟩) ∧
    phantasmWait sampleState (fun _ _ => countOnlyPayload) "u" 1 5 =
      (sampleState, ⟨.payload countOnlyPayload, 1, 0⟩) :=
  ⟨wait_fallback_signals.1 sampleState (fun _ _ => successOnlyPayload) "u" 1 4 rfl rfl,
   wait_fallback_signals.2 sampleState (fun _ _ => countOnlyPayload) "u" 1 4 3
     rfl rfl rfl (by decide)⟩

/-- C5 (code bug): `get_playbook_action_results(action="get ticket",
playbook_id=7, interval=0, max_attempts=5)` against a server answering
`{"status": "running"}` on the first fetch and
`{"status": "success", "data": [...]}` on the second does not return the
second payload after 2 fetches: line 777 passes `_url` the keyword
`filters=`, which `_url` does not accept, so the call raises `TypeError`
before any fetch of the resource — zero fetches, no payload. -/
theorem playbook_action_results_type_error :
    get_playbook_action_results sampleState twoStepServer "get ticket"
        (some (.num 7)) true 0 5 =
      ActionResultsOutcome.typeError
        "_url() got an unexpected keyword argument \x27filters\x27" := rfl

/-- C6 (code bug): `get_playbook_results` called with waiting enabled does
not hand its URL to `_wait` — against a server that always reports
`{"status": "running"}` it performs a single fetch and returns that
in-progress payload, where handing the URL to `_wait` with
`max_attempts = 5` would have polled five times and returned the timeout
outcome. -/
theorem playbook_results_ignores_wait :
    get_playbook_results sampleState alwaysRunningServer (some (.num 3)) true 1 5 =
      some (sampleState, ⟨.payload runningPayload, 1, 0⟩) ∧
    (phantasmWait sampleState alwaysRunningServer
        (phantasmUrl sampleState "playbook_run/3" [] 0 0) 1 5).2 =
      ⟨WaitResult.timeout, 5, 5⟩ := by
  exact ⟨rfl, rfl⟩

/-- C7: a call to `_wait` leaves every field of the client object
unchanged — the state it returns is, field for field, the state it was
entered with, for every server behaviour, url, interval and attempt
budget. -/
theorem wait_preserves_state (s : PhantasmState) (get : String → Nat → Json)
    (url : String) (interval maxAttempts : Nat) :
    (phantasmWait s get url interval maxAttempts).1 = s :=
  waitLoop_fst s get url interval maxAttempts 0

/-- C8: `create_container(name="c1", label="test")` (remaining arguments at
their source defaults) against a server answering `{"id": 42}` leaves the
client's container-identifier record holding exactly `42` and returns the
raw JSON response unmodified. -/
theorem create_container_records_id :
    (create_container sampleState (fun _ _ => Json.obj [("id", .num 42)])
        "c1" [] (.obj []) (.obj []) "This originated from a PyTest Case" "test"
        true "white" "low" "" "new" []).1.container_id = some (.num 42) ∧
    (create_container sampleState (fun _ _ => Json.obj [("id", .num 42)])
        "c1" [] (.obj []) (.obj []) "This originated from a PyTest Case" "test"
        true "white" "low" "" "new" []).2 = Json.obj [("id", .num 42)] :=
  ⟨rfl, rfl⟩

/-- C9 (code bug): with a non-empty filter list, `_url` emits the filter
expressions after `&include_expensive` behind a second `?`, so the result
is not a single well-formed URL whose query carries the `_filter_`
parameters — contradicting the function's own docstring example. -/
theorem url_filter_malformed :
    phantasmUrl sampleState "app_run" ["action=x"] 0 0 =
      "https://phantom.local/rest/app_run?page=0&page_size=0&include_expensive?&_filter_action=x" ∧
    (phantasmUrl sampleState "app_run" ["action=x"] 0 0).toList.count ('?') = 2 :=
  ⟨rfl, by decide⟩

/-- C10: `_wait` terminates for every sequence of payloads the server may
return, performing at most `max_attempts` loop iterations and hence at
most `max_attempts` fetches — the payload's `count` field, though it
rebinds the loop variable each iteration, cannot extend the loop. -/
theorem wait_fetch_bound (s : PhantasmState) (get : String → Nat → Json)
    (url : String) (interval maxAttempts : Nat) :
    (phantasmWait s get url interval maxAttempts).2.fetches ≤ maxAttempts :=
  waitLoop_fetches_le s get url interval maxAttempts 0

end Phantasm
